import Mathlib

/-
  Verification development for the offline-first POS synchronization
  subsystem (marcomamdouh99/newsync).

  The definitions below are a shallow embedding of the TypeScript source:
  - src/lib/seed-database.ts    (LocalStorageService: operation queue)
  - src/lib/db.ts               (OfflineManager: syncAll / pushOperations /
                                 pushBatch / initialize)
  - src/app/api/sync/batch-push/route.ts (server-side batch processor)
  - src/lib/sync-utils.ts       (detectConflict / isDataEqual / resolveConflict)
  - src/app/api/sync/conflicts/[id]/resolve/route.ts (resolution endpoint)

  Machine integers are modelled as Nat (JS timestamps), fallible code as
  Except/Option, and the stateful services as explicit state passing.
-/

namespace NewSync

/-- Operation types for the sync queue, from the client enumeration
`OperationType` in src/lib/seed-database.ts (LocalStorageService module). -/
inductive OperationType where
  | CREATE_ORDER
  | UPDATE_ORDER
  | CREATE_INVENTORY
  | UPDATE_INVENTORY
  | CREATE_WASTE
  | CREATE_SHIFT
  | UPDATE_SHIFT
  | UPDATE_USER
  | CREATE_CUSTOMER
  | UPDATE_CUSTOMER
  | CREATE_CUSTOMER_ADDRESS
  | CREATE_COURIER
  | UPDATE_COURIER
  | CREATE_DELIVERY_AREA
  | UPDATE_DELIVERY_AREA
deriving Repr, DecidableEq

/-- String value of each operation type (the enum values are the
identifier names themselves). -/
def OperationType.name : OperationType → String
  | .CREATE_ORDER => "CREATE_ORDER"
  | .UPDATE_ORDER => "UPDATE_ORDER"
  | .CREATE_INVENTORY => "CREATE_INVENTORY"
  | .UPDATE_INVENTORY => "UPDATE_INVENTORY"
  | .CREATE_WASTE => "CREATE_WASTE"
  | .CREATE_SHIFT => "CREATE_SHIFT"
  | .UPDATE_SHIFT => "UPDATE_SHIFT"
  | .UPDATE_USER => "UPDATE_USER"
  | .CREATE_CUSTOMER => "CREATE_CUSTOMER"
  | .UPDATE_CUSTOMER => "UPDATE_CUSTOMER"
  | .CREATE_CUSTOMER_ADDRESS => "CREATE_CUSTOMER_ADDRESS"
  | .CREATE_COURIER => "CREATE_COURIER"
  | .UPDATE_COURIER => "UPDATE_COURIER"
  | .CREATE_DELIVERY_AREA => "CREATE_DELIVERY_AREA"
  | .UPDATE_DELIVERY_AREA => "UPDATE_DELIVERY_AREA"

/-- One nested order line item, as read by the createOrder handler of
src/app/api/sync/batch-push/route.ts (data.items.map). -/
structure OrderItemData where
  menuItemId : String := ""
  quantity : Nat := 0
deriving Repr, DecidableEq

/-- The parts of an operation payload (operation.data) that the server-side
handlers in src/app/api/sync/batch-push/route.ts inspect for control flow:
the client-generated id (used as the created row id and as the update key),
the inventory ingredient reference, and the nested order items (absent
items make createOrder throw before any row is written). All other payload
fields are copied verbatim into the row and never branch on, so they are
not tracked here. -/
structure OpData where
  id : String := ""
  ingredientId : String := ""
  items : Option (List OrderItemData) := none
deriving Repr, DecidableEq

/-- A queued sync operation (interface SyncOperation of
src/lib/seed-database.ts). -/
structure ClientOp where
  id : String
  type : OperationType
  data : OpData
  timestamp : Nat
  retryCount : Nat
  branchId : String
deriving Repr, DecidableEq

/-- Configuration constants, from const CONFIG in src/lib/db.ts. -/
structure SyncConfig where
  maxRetryAttempts : Nat
  syncInterval : Nat
  retryDelay : Nat
  batchSize : Nat
deriving Repr, DecidableEq

/-- The CONFIG object of src/lib/db.ts. -/
def CONFIG : SyncConfig :=
  { maxRetryAttempts := 3, syncInterval := 30000, retryDelay := 5000, batchSize := 50 }

/-- IndexedDB store.put on the operations table (keyPath is id): replaces
the record with the same key if present, otherwise inserts. The store is
modelled as a list in insertion order. -/
def putOp (store : List ClientOp) (op : ClientOp) : List ClientOp :=
  if store.any (fun o => o.id == op.id) then
    store.map (fun o => if o.id == op.id then op else o)
  else
    store ++ [op]

/-- IndexedDB store.delete by key on the operations table
(LocalStorageService.removeOperation). Keys are unique, so deleting the
matching record is a filter. -/
def removeOperation (store : List ClientOp) (operationId : String) : List ClientOp :=
  store.filter (fun o => o.id ≠ operationId)

/-- LocalStorageService.updateOperation: a put of the full operation
record (used for retry-count bumps). -/
def updateOperation (store : List ClientOp) (op : ClientOp) : List ClientOp :=
  putOp store op

/-- The id assigned by LocalStorageService.addOperation:
type-Date.now()-random suffix. -/
def genOpId (type : OperationType) (now : Nat) (rand : String) : String :=
  type.name ++ "-" ++ toString now ++ "-" ++ rand

/-- LocalStorageService.addOperation: builds the full operation with the
generated id, timestamp = Date.now() and retryCount = 0, and puts it in
the operations store. The ambient clock value and the random suffix are
passed explicitly. -/
def addOperation (store : List ClientOp) (type : OperationType) (data : OpData)
    (branchId : String) (now : Nat) (rand : String) : List ClientOp :=
  putOp store
    { id := genOpId type now rand
      type := type
      data := data
      timestamp := now
      retryCount := 0
      branchId := branchId }

/-- Timestamp order on queued operations (the comparator
(a, b) => a.timestamp - b.timestamp of getPendingOperations). -/
def tsLE (a b : ClientOp) : Prop := a.timestamp ≤ b.timestamp

instance : DecidableRel tsLE := fun a b => inferInstanceAs (Decidable (a.timestamp ≤ b.timestamp))

instance : IsTotal ClientOp tsLE := ⟨fun a b => Nat.le_total a.timestamp b.timestamp⟩

instance : IsTrans ClientOp tsLE := ⟨fun _ _ _ h h' => Nat.le_trans h h'⟩

/-- LocalStorageService.getPendingOperations: all queued operations,
sorted by ascending timestamp (a stable sort, as Array.prototype.sort
with the numeric comparator). -/
def getPendingOperations (store : List ClientOp) : List ClientOp :=
  List.insertionSort tsLE store

/-! ## Server-side batch processor (src/app/api/sync/batch-push/route.ts) -/

/-- One operation as sent over the wire by OfflineManager.pushBatch:
only type, data and timestamp are serialized (the client-side id and
branchId are not part of the per-operation payload). -/
structure SentOp where
  type : OperationType
  data : OpData
  timestamp : Nat
deriving Repr, DecidableEq

instance : Inhabited SentOp := ⟨⟨.CREATE_ORDER, {}, 0⟩⟩

/-- A SyncHistory row as created by the batch-push route
(direction UP, status COMPLETED). -/
structure HistoryEntry where
  branchId : String
  direction : String
  status : String
  recordsSynced : Nat
  startedAt : Nat
  completedAt : Nat
deriving Repr, DecidableEq

/-- Authoritative storage, abstracted to the parts the batch-push route
branches on: for each table touched by a handler, the set of existing row
ids (kept as a list in insertion order), plus the ingredient ids that
inventory rows reference, the SyncHistory table, and a counter for
server-generated ids. Row field contents are copied verbatim by the
handlers and never branch on, so they are not tracked. -/
structure ServerDB where
  branchIds : List String := []
  ingredientIds : List String := []
  orderIds : List String := []
  inventoryIds : List String := []
  wasteIds : List String := []
  shiftIds : List String := []
  userIds : List String := []
  syncHistory : List HistoryEntry := []
  nextId : Nat := 0
deriving Repr, DecidableEq

/-- Modelled from the spec: the Prisma schema (prisma/schema.prisma, not
under src/) is not part of the sources, but the spec treats the server as
a relational store that "can detect duplicate/invalid writes", each table
keyed by a unique id (the handlers create rows with id = data.id and
update with where id = data.id). So a create on an existing id fails with
the duplicate-row error. -/
def tableCreate (tbl : List String) (id : String) : Except String (List String) :=
  if tbl.contains id then
    .error "Unique constraint failed on the fields: (id)"
  else
    .ok (tbl ++ [id])

/-- Modelled from the spec: an update (Prisma update with where id) on a
missing id is rejected by the store. -/
def tableUpdate (tbl : List String) (id : String) : Except String (List String) :=
  if tbl.contains id then
    .ok tbl
  else
    .error "Record to update not found"

/-- The createOrder handler: db.order.create with id = data.id and the
nested items created from data.items.map (a missing items array throws
before any row is written). -/
def createOrder (s : ServerDB) (data : OpData) (_branchId : String) : Except String ServerDB :=
  match data.items with
  | none => .error "Cannot read properties of undefined (reading map)"
  | some _ => do
      let tbl ← tableCreate s.orderIds data.id
      .ok { s with orderIds := tbl }

/-- The updateOrder handler: db.order.update with where id = data.id
(then replaces the order item rows, whose contents are not tracked). -/
def updateOrder (s : ServerDB) (data : OpData) (_branchId : String) : Except String ServerDB := do
  let tbl ← tableUpdate s.orderIds data.id
  .ok { s with orderIds := tbl }

/-- The createInventory handler: db.inventory.create with id = data.id and
ingredientId = data.ingredientId. Modelled from the spec: the ingredient
reference is a foreign key of the relational store (spec scenario: a
batch-push operation whose data references a non-existent ingredient
fails), so a create referencing a missing ingredient is rejected. -/
def createInventory (s : ServerDB) (data : OpData) (_branchId : String) : Except String ServerDB :=
  if s.ingredientIds.contains data.ingredientId then do
    let tbl ← tableCreate s.inventoryIds data.id
    .ok { s with inventoryIds := tbl }
  else
    .error "Foreign key constraint violated: ingredientId"

/-- The updateInventory handler: db.inventory.update with where id = data.id. -/
def updateInventory (s : ServerDB) (data : OpData) (_branchId : String) : Except String ServerDB := do
  let tbl ← tableUpdate s.inventoryIds data.id
  .ok { s with inventoryIds := tbl }

/-- The createWaste handler: db.wasteLog.create with id = data.id. -/
def createWaste (s : ServerDB) (data : OpData) (_branchId : String) : Except String ServerDB := do
  let tbl ← tableCreate s.wasteIds data.id
  .ok { s with wasteIds := tbl }

/-- The createShift handler: the client id is used only when present and
not a temp- placeholder; otherwise the store generates a fresh id. -/
def createShift (s : ServerDB) (data : OpData) (_branchId : String) : Except String ServerDB :=
  if data.id ≠ "" ∧ ¬ data.id.startsWith "temp-" then do
    let tbl ← tableCreate s.shiftIds data.id
    .ok { s with shiftIds := tbl }
  else
    .ok { s with shiftIds := s.shiftIds ++ ["srv-" ++ toString s.nextId]
                 nextId := s.nextId + 1 }

/-- The updateShift handler: db.shift.update with where id = data.id. -/
def updateShift (s : ServerDB) (data : OpData) (_branchId : String) : Except String ServerDB := do
  let tbl ← tableUpdate s.shiftIds data.id
  .ok { s with shiftIds := tbl }

/-- The updateUser handler: db.user.update with where id = data.id. -/
def updateUser (s : ServerDB) (data : OpData) : Except String ServerDB := do
  let tbl ← tableUpdate s.userIds data.id
  .ok { s with userIds := tbl }

/-- processOperation of the batch-push route: the switch over
operation.type. Only the eight types of the route-local OperationType
constant have cases; every other type reaches the default branch and
throws the unknown-operation-type error. -/
def processOperation (s : ServerDB) (operation : SentOp) (branchId : String) :
    Except String ServerDB :=
  match operation.type with
  | .CREATE_ORDER => createOrder s operation.data branchId
  | .UPDATE_ORDER => updateOrder s operation.data branchId
  | .CREATE_INVENTORY => createInventory s operation.data branchId
  | .UPDATE_INVENTORY => updateInventory s operation.data branchId
  | .CREATE_WASTE => createWaste s operation.data branchId
  | .CREATE_SHIFT => createShift s operation.data branchId
  | .UPDATE_SHIFT => updateShift s operation.data branchId
  | .UPDATE_USER => updateUser s operation.data
  | t => .error ("Unknown operation type: " ++ t.name)

/-- The per-batch result accumulator of the POST handler. -/
structure BatchResults where
  processed : Nat
  failed : Nat
  failedIds : List String
  errors : List String
deriving Repr, DecidableEq

/-- The operation loop of the POST handler: each operation is processed
in array order inside its own try/catch, so a failure never aborts the
remaining operations; failures are recorded under the positional id
op-(index) with the error string prefixed by the operation type. -/
def runOps (branchId : String) : ServerDB → Nat → List SentOp → BatchResults × ServerDB
  | s, _, [] => (⟨0, 0, [], []⟩, s)
  | s, i, op :: rest =>
      match processOperation s op branchId with
      | .ok s' =>
          let (r, sFin) := runOps branchId s' (i + 1) rest
          ({ r with processed := r.processed + 1 }, sFin)
      | .error e =>
          let (r, sFin) := runOps branchId s (i + 1) rest
          ({ r with failed := r.failed + 1
                    failedIds := ("op-" ++ toString i) :: r.failedIds
                    errors := (op.type.name ++ ": " ++ e) :: r.errors }, sFin)

/-- HTTP-level response of the batch-push POST. -/
structure BatchRespBody where
  success : Bool
  processed : Nat
  failed : Nat
  failedIds : List String
  errors : List String
deriving Repr, DecidableEq

/-- Result of a route invocation: a JSON body on success, or a non-2xx
status with an error message. -/
inductive ApiResp where
  | ok (body : BatchRespBody)
  | err (status : Nat) (message : String)
deriving Repr, DecidableEq

/-- POST of src/app/api/sync/batch-push/route.ts: validates branchId and
the branch row, processes the operations in order, records a SyncHistory
entry (recordsSynced = processed, startedAt = first operation timestamp)
exactly when processed is positive, and reports the counters and the
parallel failedIds/errors lists. -/
def batchPushPOST (s : ServerDB) (branchId : String) (operations : List SentOp)
    (now : Nat) : ApiResp × ServerDB :=
  if branchId = "" then
    (.err 400 "Branch ID is required", s)
  else if ¬ s.branchIds.contains branchId then
    (.err 404 "Branch not found", s)
  else
    let (r, s1) := runOps branchId s 0 operations
    let s2 :=
      if r.processed > 0 then
        { s1 with syncHistory := s1.syncHistory ++
            [{ branchId := branchId
               direction := "UP"
               status := "COMPLETED"
               recordsSynced := r.processed
               startedAt := (operations.headD default).timestamp
               completedAt := now }] }
      else s1
    (.ok { success := r.failed == 0
           processed := r.processed
           failed := r.failed
           failedIds := r.failedIds
           errors := r.errors }, s2)

/-! ## Client-side sync engine (class OfflineManager of src/lib/db.ts) -/

/-- The wire form of one queued operation, as built by
OfflineManager.pushBatch (operations.map keeps type, data, timestamp). -/
def sentOf (op : ClientOp) : SentOp :=
  { type := op.type, data := op.data, timestamp := op.timestamp }

/-- The result record of OfflineManager.pushBatch. -/
structure PushBatchRes where
  processed : Nat
  failed : Nat
  failedIds : List String
  errors : List String
deriving Repr, DecidableEq

/-- The network side of a batch push as seen by the client: either a
parsed 2xx JSON body, or a failure (a thrown fetch error or a non-ok
status turned into the thrown Batch push failed error). -/
def HttpBatch := List SentOp → Except String BatchRespBody

/-- OfflineManager.pushBatch: sends the stripped operations; on a thrown
error marks the whole batch failed under the real client-side operation
ids; on a 2xx response copies the counters with JS falsy defaults
(batchResult.processed of 0 falls back to operations.length). -/
def pushBatch (http : HttpBatch) (operations : List ClientOp) : PushBatchRes :=
  match http (operations.map sentOf) with
  | .error e =>
      { processed := 0
        failed := operations.length
        failedIds := operations.map (fun op => op.id)
        errors := [e] }
  | .ok body =>
      { processed := if body.processed = 0 then operations.length else body.processed
        failed := body.failed
        failedIds := body.failedIds
        errors := body.errors }

/-- The queue-update loop at the end of each pushOperations batch: every
batch operation whose id is not among the returned failedIds is removed
from the store; the others are kept with retryCount incremented by one. -/
def applyBatchResult (store : List ClientOp) (batch : List ClientOp)
    (failedIds : List String) : List ClientOp :=
  batch.foldl
    (fun acc op =>
      if ¬ failedIds.contains op.id then
        removeOperation acc op.id
      else
        updateOperation acc { op with retryCount := op.retryCount + 1 })
    store

/-- Accumulated result fields of OfflineManager.pushOperations. -/
structure PushAcc where
  success : Bool
  operationsProcessed : Nat
  operationsFailed : Nat
  errors : List String
deriving Repr, DecidableEq

/-- One iteration of the while loop of OfflineManager.pushOperations:
re-read the pending queue sorted by timestamp, take a batch of
CONFIG.BATCH_SIZE, push it, fold its counters into the accumulator and
apply removals/retry bumps to the store. -/
def pushLoopBody (http : HttpBatch) (store : List ClientOp) (acc : PushAcc) :
    List ClientOp × PushAcc :=
  let operations := getPendingOperations store
  let batch := operations.take CONFIG.batchSize
  let br := pushBatch http batch
  let acc' : PushAcc :=
    { success := if br.errors.length > 0 then false else acc.success
      operationsProcessed := acc.operationsProcessed + br.processed
      operationsFailed := acc.operationsFailed + br.failed
      errors := acc.errors ++ br.errors }
  (applyBatchResult store batch br.failedIds, acc')

/-- Network effects a sync pass can perform. -/
inductive NetAction where
  | pullReq
  | batchPushReq
deriving Repr, DecidableEq

/-- The while loop of OfflineManager.pushOperations, unrolled up to a fuel
bound (the source loop has no bound of its own: it repeats until the
re-read queue is empty). Each iteration that still sees a non-empty queue
performs one batch-push request, recorded as a NetAction. -/
def pushOpsGo (http : HttpBatch) : Nat → List ClientOp → PushAcc →
    PushAcc × List ClientOp × List NetAction
  | 0, store, acc => (acc, store, [])
  | fuel + 1, store, acc =>
      if (getPendingOperations store).length = 0 then
        (acc, store, [])
      else
        let step := pushLoopBody http store acc
        let next := pushOpsGo http fuel step.1 step.2
        (next.1, next.2.1, NetAction.batchPushReq :: next.2.2)

/-- OfflineManager.pushOperations: runs the batch loop starting from the
all-success accumulator. -/
def pushOperations (http : HttpBatch) (fuel : Nat) (store : List ClientOp) :
    PushAcc × List ClientOp × List NetAction :=
  pushOpsGo http fuel store
    { success := true, operationsProcessed := 0, operationsFailed := 0, errors := [] }

/-- The manager state: the in-memory OfflineManager flags together with
the persisted SyncState record and the operations store it drives. -/
structure MgrState where
  isOnline : Bool
  isSyncing : Bool
  initialized : Bool
  hasInitPromise : Bool
  branchId : String
  store : List ClientOp
  lastPullTimestamp : Nat
  lastPushTimestamp : Nat
  lastPullFailed : Bool
  pendingOperations : Nat
deriving Repr, DecidableEq

/-- The network as seen by one sync pass: whether the pull endpoint
answers with data, and the batch-push transport. -/
structure Transport where
  pullOk : Bool
  http : HttpBatch

/-- OfflineManager.pullData: skipped entirely when the previous pull
failed less than five minutes ago; otherwise performs the pull request
and records success or failure in the sync state (the cached entity
tables the pulled data is written into are outside this model). -/
def pullData (tr : Transport) (st : MgrState) (now : Nat) : MgrState × List NetAction :=
  if now - st.lastPullTimestamp < 300000 ∧ st.lastPullFailed then
    (st, [])
  else if tr.pullOk then
    ({ st with lastPullFailed := false, lastPullTimestamp := now }, [.pullReq])
  else
    ({ st with lastPullFailed := true, lastPullTimestamp := now }, [.pullReq])

/-- The SyncResult record returned by OfflineManager.syncAll. -/
structure SyncResultC where
  success : Bool
  operationsProcessed : Nat
  operationsFailed : Nat
  errors : List String
  timestamp : Nat
deriving Repr, DecidableEq

/-- OfflineManager.syncAll: returns immediately when a sync is already in
progress or the manager is offline; otherwise takes the sync-in-progress
lock, pulls (failure non-fatal), pushes the queue, updates the sync
state, and releases the lock. The returned action list records which
network requests the call performed. The 60-second stuck-lock timer only
clears the flag and cannot abort the body, so it has no counterpart in
this sequential model. -/
def syncAll (tr : Transport) (fuel : Nat) (st : MgrState) (now : Nat) :
    SyncResultC × MgrState × List NetAction :=
  if st.isSyncing then
    ({ success := false
       operationsProcessed := 0
       operationsFailed := 0
       errors := ["Sync already in progress"]
       timestamp := now }, st, [])
  else if ¬ st.isOnline then
    ({ success := false
       operationsProcessed := 0
       operationsFailed := 0
       errors := ["Offline - cannot sync"]
       timestamp := now }, st, [])
  else
    let st1 := { st with isSyncing := true }
    let (st2, pullActs) := pullData tr st1 now
    let (acc, store', pushActs) := pushOperations tr.http fuel st2.store
    let st3 := { st2 with
                   store := store'
                   lastPushTimestamp := now
                   pendingOperations := store'.length
                   isSyncing := false }
    ({ success := acc.success
       operationsProcessed := acc.operationsProcessed
       operationsFailed := acc.operationsFailed
       errors := acc.errors
       timestamp := now }, st3, pullActs ++ pushActs)

/-- What a call to OfflineManager.initialize did. -/
inductive InitOutcome where
  | joinedExistingPromise
  | noOpSameBranch
  | ranInitialization
deriving Repr, DecidableEq

/-- OfflineManager.initialize: returns the memoized
initializationPromise whenever it is set (hasInitPromise models
initializationPromise not being null; the source never resets it to
null, neither after completion nor in destroy); otherwise a no-op when
already initialized for the same branch; otherwise runs the
initialization body, which stores the branch id, sets up storage and
listeners (outside this model) and leaves the promise memoized. -/
def initializeManager (st : MgrState) (branchId : String) : MgrState × InitOutcome :=
  if st.hasInitPromise then
    (st, .joinedExistingPromise)
  else if st.initialized ∧ st.branchId = branchId then
    (st, .noOpSameBranch)
  else
    ({ st with branchId := branchId, initialized := true, hasInitPromise := true },
     .ranInitialization)

/-- One full client-server round of the pushOperations loop against the
real batch-push route: the client takes a batch from the sorted queue,
POSTs the stripped operations, interprets the response exactly as
pushBatch does, and applies the removal/retry loop to its queue. Returns
the new server state, the new client queue and the client-side batch
result. -/
def pushRoundRT (sdb : ServerDB) (branchId : String) (store : List ClientOp)
    (now : Nat) : ServerDB × List ClientOp × PushBatchRes :=
  let operations := getPendingOperations store
  let batch := operations.take CONFIG.batchSize
  let (resp, sdb') := batchPushPOST sdb branchId (batch.map sentOf) now
  let br : PushBatchRes :=
    match resp with
    | .ok body =>
        { processed := if body.processed = 0 then batch.length else body.processed
          failed := body.failed
          failedIds := body.failedIds
          errors := body.errors }
    | .err status msg =>
        { processed := 0
          failed := batch.length
          failedIds := batch.map (fun op => op.id)
          errors := ["Batch push failed: " ++ toString status ++ " " ++ msg] }
  (sdb', applyBatchResult store batch br.failedIds, br)

/-! ## Conflict ledger (src/lib/sync-utils.ts and the resolve route) -/

/-- JSON-like payload values exchanged during conflict detection.
Undefined is folded into null (isDataEqual treats both through the same
null/undefined guard). -/
inductive JVal where
  | null
  | bool (b : Bool)
  | num (n : Int)
  | str (s : String)
  | arr (elems : List JVal)
  | obj (fields : List (String × JVal))

/-- The volatile fields excluded from the structural comparison by
isDataEqual. -/
def volatileFields : List String := ["createdAt", "updatedAt", "lastSyncAt"]

/-- Object property access obj[key] (JS objects have unique keys; a
missing key reads as undefined, folded into null). -/
def jLookup (fields : List (String × JVal)) (key : String) : JVal :=
  match fields.find? (fun kv => kv.1 == key) with
  | some kv => kv.2
  | none => .null

/-- The non-volatile keys of an object, as Object.keys filtered by
isDataEqual. -/
def jKeys (fields : List (String × JVal)) : List String :=
  (fields.map (fun kv => kv.1)).filter (fun k => ¬ volatileFields.contains k)

mutual

/-- isDataEqual of src/lib/sync-utils.ts: deep structural comparison that
short-circuits on null/undefined, compares primitives with strict
equality, arrays elementwise after a length check, and objects over their
keys with createdAt/updatedAt/lastSyncAt excluded. -/
def isDataEqual : JVal → JVal → Bool
  | .null, b => match b with | .null => true | _ => false
  | _, .null => false
  | .bool x, b => match b with | .bool y => x == y | _ => false
  | .num x, b => match b with | .num y => x == y | _ => false
  | .str x, b => match b with | .str y => x == y | _ => false
  | .arr xs, b =>
      match b with
      | .arr ys => arrEq xs ys
      | _ => false
  | .obj f1, b =>
      match b with
      | .obj f2 => ((jKeys f1).length == (jKeys f2).length) && fieldsEq f2 f1
      | _ => false

/-- Elementwise array comparison (the length check plus the indexed
every of isDataEqual). -/
def arrEq : List JVal → List JVal → Bool
  | [], [] => true
  | [], _ :: _ => false
  | _ :: _, [] => false
  | x :: xs, y :: ys => isDataEqual x y && arrEq xs ys

/-- The keys1.every body of isDataEqual, iterating the first object's
fields: volatile keys are skipped (they were filtered out of keys1), and
each remaining key must occur among the second object's non-volatile keys
with structurally equal value. -/
def fieldsEq (f2 : List (String × JVal)) : List (String × JVal) → Bool
  | [] => true
  | (k, v) :: rest =>
      if volatileFields.contains k then
        fieldsEq f2 rest
      else
        ((jKeys f2).contains k && isDataEqual v (jLookup f2 k)) && fieldsEq f2 rest

end

/-- One SyncConflict row. In the source the payloads are persisted as
their JSON.stringify serializations; the model keeps the serialized
values themselves. -/
structure ConflictRow where
  id : Nat
  branchId : String
  entityType : String
  entityId : String
  conflictReason : String
  branchPayload : JVal
  centralPayload : JVal
  detectedAt : Nat
  resolvedAt : Option Nat
  resolvedBy : Option String
  resolution : Option String

/-- The SyncConflict table plus the id sequence for new rows. -/
structure ConflictDB where
  rows : List ConflictRow
  nextId : Nat

/-- The where clause of the findFirst lookup detectConflict performs: an
unresolved conflict row for this branch, entity type and entity id. -/
def openPred (branchId entityType entityId : String) (r : ConflictRow) : Bool :=
  r.branchId == branchId && r.entityType == entityType &&
  r.entityId == entityId && r.resolvedAt == none

/-- The row detectConflict persists on first detection. -/
def newConflictRow (db : ConflictDB) (branchId entityType entityId : String)
    (branchData centralData : JVal) (now : Nat) : ConflictRow :=
  { id := db.nextId
    branchId := branchId
    entityType := entityType
    entityId := entityId
    conflictReason := "Data mismatch between branch and central"
    branchPayload := branchData
    centralPayload := centralData
    detectedAt := now
    resolvedAt := none
    resolvedBy := none
    resolution := none }

/-- detectConflict of src/lib/sync-utils.ts: if an unresolved conflict
row already exists for the branch/entityType/entityId triple, returns
true without writing; otherwise compares the payloads and persists a new
unresolved row exactly when they differ, returning whether they differ. -/
def detectConflict (db : ConflictDB) (branchId entityType entityId : String)
    (branchData centralData : JVal) (now : Nat) : Bool × ConflictDB :=
  match db.rows.find? (openPred branchId entityType entityId) with
  | some _ => (true, db)
  | none =>
      let hasConflict := ¬ isDataEqual branchData centralData
      if hasConflict then
        (true,
         { rows := db.rows ++ [newConflictRow db branchId entityType entityId
             branchData centralData now]
           nextId := db.nextId + 1 })
      else
        (false, db)

/-- resolveConflict of src/lib/sync-utils.ts: unconditionally stamps
resolvedAt, resolvedBy and resolution onto the row with the given id. -/
def resolveConflict (db : ConflictDB) (conflictId : Nat) (resolution : String)
    (resolvedBy : String) (now : Nat) : ConflictDB :=
  { db with rows := db.rows.map (fun r =>
      if r.id == conflictId then
        { r with resolvedAt := some now, resolvedBy := some resolvedBy,
                 resolution := some resolution }
      else r) }

/-- Outcome of the resolve endpoint, keyed by the JSON it answers. -/
inductive ResolveOutcome where
  | badResolution
  | missingResolvedBy
  | notFound
  | alreadyResolved
  | resolved
deriving Repr, DecidableEq

/-- POST of src/app/api/sync/conflicts/[id]/resolve/route.ts: validates
the resolution and resolvedBy inputs, loads the conflict, rejects with
the Conflict already resolved error when resolvedAt is already set
(without touching the row), and otherwise applies resolveConflict. The
entity-table writes of applyMergedData are outside this model; they do
not touch the conflict table. -/
def resolvePost (db : ConflictDB) (conflictId : Nat) (resolution : Option String)
    (resolvedBy : Option String) (now : Nat) : ResolveOutcome × ConflictDB :=
  match resolution with
  | none => (.badResolution, db)
  | some res =>
      if ¬ (["ACCEPT_BRANCH", "ACCEPT_CENTRAL", "MANUAL_MERGE"].contains res) then
        (.badResolution, db)
      else
        match resolvedBy with
        | none => (.missingResolvedBy, db)
        | some by' =>
            match db.rows.find? (fun r => r.id == conflictId) with
            | none => (.notFound, db)
            | some conflict =>
                match conflict.resolvedAt with
                | some _ => (.alreadyResolved, db)
                | none => (.resolved, resolveConflict db conflictId res by' now)

/-! ## Derived definitions used by the statements below -/

/-- The ids of the records in an operations store. -/
def idsOf (store : List ClientOp) : List String :=
  store.map (fun o => o.id)

/-- The types for which the batch-push route declares a handler: the
members of the route-local OperationType constant (the eight cases of the
processOperation switch). -/
def serverHandled : OperationType → Bool
  | .CREATE_ORDER => true
  | .UPDATE_ORDER => true
  | .CREATE_INVENTORY => true
  | .UPDATE_INVENTORY => true
  | .CREATE_WASTE => true
  | .CREATE_SHIFT => true
  | .UPDATE_SHIFT => true
  | .UPDATE_USER => true
  | _ => false

/-- The unknown-operation-type error message thrown by the default branch
of processOperation. -/
def unknownTypeMsg (t : OperationType) : String :=
  "Unknown operation type: " ++ t.name

/-- A transport whose batch-push HTTP request always fails (fetch throws
or the response is non-ok, both reaching the catch of pushBatch). -/
def failingHttp (msg : String) : HttpBatch := fun _ => .error msg

/-- One iteration of the pushOperations while loop when the batch-push
request itself fails: the loop body with a failing transport (its store
component does not depend on the result accumulator). -/
def pushIterHttpFail (msg : String) (store : List ClientOp) : List ClientOp :=
  (pushLoopBody (failingHttp msg) store
      { success := true, operationsProcessed := 0, operationsFailed := 0, errors := [] }).1

/-- The unresolved conflict rows recorded for one entity of one branch. -/
def openConflicts (db : ConflictDB) (branchId entityType entityId : String) :
    List ConflictRow :=
  db.rows.filter (openPred branchId entityType entityId)

/-- Whether a route invocation answered 2xx. -/
def respIsOk : ApiResp → Bool
  | .ok _ => true
  | .err _ _ => false

/-- The success flag of a 2xx batch-push response. -/
def respSuccess : ApiResp → Bool
  | .ok body => body.success
  | .err _ _ => false

/-- The processed counter of a 2xx batch-push response. -/
def respProcessed : ApiResp → Nat
  | .ok body => body.processed
  | .err _ _ => 0

/-- The failed counter of a 2xx batch-push response. -/
def respFailed : ApiResp → Nat
  | .ok body => body.failed
  | .err _ _ => 0

/-- The failedIds list of a 2xx batch-push response. -/
def respFailedIds : ApiResp → List String
  | .ok body => body.failedIds
  | .err _ _ => []

/-- The errors list of a 2xx batch-push response. -/
def respErrors : ApiResp → List String
  | .ok body => body.errors
  | .err _ _ => []

/-! ## Concrete inputs for witnesses and counterexamples -/

/-- A server with one branch b1 and otherwise empty tables. -/
def sdbBranch : ServerDB := { branchIds := ["b1"] }

/-- A transport whose pull succeeds and whose batch push always fails. -/
def trConst : Transport := { pullOk := true, http := failingHttp "network down" }

/-- A manager state in the middle of a sync pass. -/
def stSyncing : MgrState :=
  { isOnline := true, isSyncing := true, initialized := true, hasInitPromise := true
    branchId := "b1", store := [], lastPullTimestamp := 0, lastPushTimestamp := 0
    lastPullFailed := false, pendingOperations := 0 }

/-- A freshly constructed manager (the module-level singleton before any
initialize call). -/
def freshMgr : MgrState :=
  { isOnline := true, isSyncing := false, initialized := false, hasInitPromise := false
    branchId := "", store := [], lastPullTimestamp := 0, lastPushTimestamp := 0
    lastPullFailed := false, pendingOperations := 0 }

/-- A create-order payload carrying a stable client-generated id and one
line item. -/
def orderData : OpData :=
  { id := "order-1", items := some [{ menuItemId := "m1", quantity := 1 }] }

/-- A CREATE_ORDER operation as received by the batch-push route. -/
def opCreateOrder : SentOp := { type := .CREATE_ORDER, data := orderData, timestamp := 7 }

/-- A queued CREATE_INVENTORY operation whose payload references a
non-existent ingredient (the spec's failing-batch scenario), with the id
shape addOperation generates. -/
def invOp : ClientOp :=
  { id := "CREATE_INVENTORY-1000-x7k2p9q4r"
    type := .CREATE_INVENTORY
    data := { id := "inv-9", ingredientId := "ing-404" }
    timestamp := 1000
    retryCount := 0
    branchId := "b1" }

/-- An already-resolved conflict row. -/
def resolvedRow : ConflictRow :=
  { id := 1, branchId := "b1", entityType := "MenuItem", entityId := "M1"
    conflictReason := "Data mismatch between branch and central"
    branchPayload := .num 5, centralPayload := .num 7
    detectedAt := 100, resolvedAt := some 200
    resolvedBy := some "admin", resolution := some "ACCEPT_BRANCH" }

/-- A conflict ledger holding a single already-resolved conflict row. -/
def resolvedLedger : ConflictDB :=
  { rows := [resolvedRow], nextId := 2 }

/-- An empty conflict ledger. -/
def emptyLedger : ConflictDB := { rows := [], nextId := 0 }

/-! ## Helper lemmas -/

/-- A put of an operation leaves that operation in the store, whether it
replaced an existing record or was appended. -/
theorem putOp_self_mem (store : List ClientOp) (op : ClientOp) : op ∈ putOp store op := by
  unfold putOp
  split
  next h =>
    rw [List.any_eq_true] at h
    obtain ⟨o, ho, hid⟩ := h
    exact List.mem_map.mpr ⟨o, ho, by simp [hid]⟩
  next =>
    simp

/-! ## Claim theorems -/

/-- C6: enqueue always succeeds and assigns the new operation an id
composed of its type, the current time and a random component, with
timestamp = now and retryCount = 0; and listPending returns all queued
operations sorted in non-decreasing timestamp order (it is a sorted
permutation of the store). -/
theorem addOperation_enqueue_and_ordering (store : List ClientOp) (t : OperationType)
    (d : OpData) (b : String) (now : Nat) (rand : String) :
    ({ id := genOpId t now rand, type := t, data := d, timestamp := now,
       retryCount := 0, branchId := b } : ClientOp) ∈ addOperation store t d b now rand ∧
    List.Sorted tsLE (getPendingOperations (addOperation store t d b now rand)) ∧
    List.Perm (getPendingOperations (addOperation store t d b now rand))
      (addOperation store t d b now rand) := by
  refine ⟨?_, List.sorted_insertionSort tsLE _, List.perm_insertionSort tsLE _⟩
  exact putOp_self_mem store _

/-- C4: syncAll is single-flight: when the sync-in-progress flag is set,
a call returns immediately with success = false and the explanatory
error, performs no network request (neither pull nor push), and leaves
the manager state untouched. -/
theorem syncAll_single_flight (tr : Transport) (fuel : Nat) (st : MgrState) (now : Nat)
    (h : st.isSyncing = true) :
    syncAll tr fuel st now =
      ({ success := false, operationsProcessed := 0, operationsFailed := 0,
         errors := ["Sync already in progress"], timestamp := now }, st, []) := by
  unfold syncAll
  rw [h]
  simp

/-- Witness for the single-flight theorem at a concrete in-progress
state. -/
theorem syncAll_single_flight_witness :
    stSyncing.isSyncing = true ∧
    syncAll trConst 5 stSyncing 42 =
      ({ success := false, operationsProcessed := 0, operationsFailed := 0,
         errors := ["Sync already in progress"], timestamp := 42 }, stSyncing, []) :=
  ⟨rfl, syncAll_single_flight trConst 5 stSyncing 42 rfl⟩

/-- C5 (evaluation of the code at the failing input): after
initialize(B1) completes, a later initialize(B2) does not re-initialize:
the memoized initialization promise is returned (it is never cleared), so
the manager state is unchanged and the engine stays on branch B1 instead
of re-initializing for B2. -/
theorem initializeManager_branch_change_noop :
    (initializeManager freshMgr "B1").2 = InitOutcome.ranInitialization ∧
    ((initializeManager freshMgr "B1").1).branchId = "B1" ∧
    (initializeManager (initializeManager freshMgr "B1").1 "B2").2 =
      InitOutcome.joinedExistingPromise ∧
    (initializeManager (initializeManager freshMgr "B1").1 "B2").1 =
      (initializeManager freshMgr "B1").1 ∧
    ((initializeManager (initializeManager freshMgr "B1").1 "B2").1).branchId = "B1" := by
  decide

/-- C3 (counterexample): CREATE_CUSTOMER is one of the fifteen enumerated
operation types of the data model, yet the batch processor classifies it
as failed purely for lacking a handler: the processOperation switch has
no case for it and the default branch throws. -/
theorem batchPush_enumerated_type_without_handler :
    (batchPushPOST sdbBranch "b1"
        [{ type := .CREATE_CUSTOMER, data := {}, timestamp := 5 }] 10).1 =
      .ok { success := false, processed := 0, failed := 1, failedIds := ["op-0"],
            errors := ["CREATE_CUSTOMER: Unknown operation type: CREATE_CUSTOMER"] } := by
  decide

/-- C3 (amended): the server-side batch processor looks up a per-type
handler for exactly the eight types of its own route-local enumeration
(CreateOrder, UpdateOrder, CreateInventory, UpdateInventory, CreateWaste,
CreateShift, UpdateShift, UpdateUser) — these are never classified as
failed with the unknown-type error — while each of the seven remaining
enumerated types (customer, customer address, courier and delivery-area
operations) is always classified as failed for lacking a handler. -/
theorem processOperation_handler_lookup (s : ServerDB) (op : SentOp) (b : String) :
    (serverHandled op.type = true →
        processOperation s op b ≠ Except.error (unknownTypeMsg op.type)) ∧
    (serverHandled op.type = false →
        processOperation s op b = Except.error (unknownTypeMsg op.type)) := by
  obtain ⟨t, d, ts⟩ := op
  obtain ⟨did, ding, ditems⟩ := d
  constructor
  · intro ht hcontra
    cases t
    all_goals (try simp [serverHandled] at ht)
    case CREATE_ORDER =>
      rcases ditems with _ | its
      · simp [processOperation, createOrder, unknownTypeMsg, OperationType.name] at hcontra
      · by_cases hc : did ∈ s.orderIds <;>
          simp [processOperation, createOrder, tableCreate, hc, Bind.bind, Except.bind,
            unknownTypeMsg, OperationType.name] at hcontra
    case UPDATE_ORDER =>
      by_cases hc : did ∈ s.orderIds <;>
        simp [processOperation, updateOrder, tableUpdate, hc, Bind.bind, Except.bind,
          unknownTypeMsg, OperationType.name] at hcontra
    case CREATE_INVENTORY =>
      by_cases hi : ding ∈ s.ingredientIds
      · by_cases hc : did ∈ s.inventoryIds <;>
          simp [processOperation, createInventory, tableCreate, hi, hc, Bind.bind,
            Except.bind, unknownTypeMsg, OperationType.name] at hcontra
      · simp [processOperation, createInventory, hi, unknownTypeMsg,
          OperationType.name] at hcontra
    case UPDATE_INVENTORY =>
      by_cases hc : did ∈ s.inventoryIds <;>
        simp [processOperation, updateInventory, tableUpdate, hc, Bind.bind, Except.bind,
          unknownTypeMsg, OperationType.name] at hcontra
    case CREATE_WASTE =>
      by_cases hc : did ∈ s.wasteIds <;>
        simp [processOperation, createWaste, tableCreate, hc, Bind.bind, Except.bind,
          unknownTypeMsg, OperationType.name] at hcontra
    case CREATE_SHIFT =>
      simp only [processOperation, createShift] at hcontra
      split at hcontra
      · by_cases hc : did ∈ s.shiftIds <;>
          simp [tableCreate, hc, Bind.bind, Except.bind, unknownTypeMsg,
            OperationType.name] at hcontra
      · simp [unknownTypeMsg, OperationType.name] at hcontra
    case UPDATE_SHIFT =>
      by_cases hc : did ∈ s.shiftIds <;>
        simp [processOperation, updateShift, tableUpdate, hc, Bind.bind, Except.bind,
          unknownTypeMsg, OperationType.name] at hcontra
    case UPDATE_USER =>
      by_cases hc : did ∈ s.userIds <;>
        simp [processOperation, updateUser, tableUpdate, hc, Bind.bind, Except.bind,
          unknownTypeMsg, OperationType.name] at hcontra
  · intro ht
    cases t <;> first
      | rfl
      | simp [serverHandled] at ht

/-- Witness for the handler-lookup theorem: a handled type is not
classified unknown, an unhandled enumerated type is. -/
theorem processOperation_handler_lookup_witness :
    serverHandled OperationType.CREATE_WASTE = true ∧
    processOperation sdbBranch
        { type := .CREATE_WASTE, data := { id := "w1" }, timestamp := 0 } "b1" ≠
      Except.error (unknownTypeMsg .CREATE_WASTE) ∧
    serverHandled OperationType.CREATE_COURIER = false ∧
    processOperation sdbBranch
        { type := .CREATE_COURIER, data := {}, timestamp := 0 } "b1" =
      Except.error (unknownTypeMsg .CREATE_COURIER) :=
  ⟨rfl, (processOperation_handler_lookup sdbBranch _ "b1").1 rfl,
   rfl, (processOperation_handler_lookup sdbBranch _ "b1").2 rfl⟩

/-- C2 (counterexample): submitting the same create-order batch twice is
not idempotent: the first submission is processed, but the second is
classified as a failed duplicate-row operation (the unique-id error), not
as a processed no-op success. -/
theorem createOrder_resubmit_counterexample :
    (batchPushPOST sdbBranch "b1" [opCreateOrder] 10).1 =
      .ok { success := true, processed := 1, failed := 0, failedIds := [], errors := [] } ∧
    (batchPushPOST (batchPushPOST sdbBranch "b1" [opCreateOrder] 10).2 "b1"
        [opCreateOrder] 20).1 =
      .ok { success := false, processed := 0, failed := 1, failedIds := ["op-0"],
            errors := ["CREATE_ORDER: Unique constraint failed on the fields: (id)"] } := by
  decide

/-- C2 (amended): resubmitting an already-applied create-order batch
creates no duplicate authoritative record (the order id is stored exactly
once), but the second submission is classified as a failed duplicate-row
operation rather than a processed no-op success. -/
theorem createOrder_resubmission_no_duplicate (s : ServerDB) (b : String) (d : OpData)
    (its : List OrderItemData) (ts now now' : Nat)
    (hb : ¬ b = "") (hbr : b ∈ s.branchIds)
    (hitems : d.items = some its) (hfresh : d.id ∉ s.orderIds) :
    (batchPushPOST s b [{ type := .CREATE_ORDER, data := d, timestamp := ts }] now).1 =
      .ok { success := true, processed := 1, failed := 0, failedIds := [], errors := [] } ∧
    (batchPushPOST s b [{ type := .CREATE_ORDER, data := d, timestamp := ts }] now).2.orderIds =
      s.orderIds ++ [d.id] ∧
    (batchPushPOST
        (batchPushPOST s b [{ type := .CREATE_ORDER, data := d, timestamp := ts }] now).2
        b [{ type := .CREATE_ORDER, data := d, timestamp := ts }] now').1 =
      .ok { success := false, processed := 0, failed := 1, failedIds := ["op-0"],
            errors := ["CREATE_ORDER: Unique constraint failed on the fields: (id)"] } ∧
    (batchPushPOST
        (batchPushPOST s b [{ type := .CREATE_ORDER, data := d, timestamp := ts }] now).2
        b [{ type := .CREATE_ORDER, data := d, timestamp := ts }] now').2.orderIds =
      s.orderIds ++ [d.id] := by
  simp [batchPushPOST, runOps, processOperation, createOrder, hitems, tableCreate,
    Bind.bind, Except.bind, hb, hbr, hfresh]
  exact ⟨by decide, by decide⟩

/-- Witness for the resubmission theorem at the concrete branch and
order payload. -/
theorem createOrder_resubmission_no_duplicate_witness :
    (batchPushPOST sdbBranch "b1" [{ type := .CREATE_ORDER, data := orderData, timestamp := 7 }] 10).1 =
      .ok { success := true, processed := 1, failed := 0, failedIds := [], errors := [] } ∧
    (batchPushPOST sdbBranch "b1" [{ type := .CREATE_ORDER, data := orderData, timestamp := 7 }] 10).2.orderIds =
      sdbBranch.orderIds ++ [orderData.id] ∧
    (batchPushPOST
        (batchPushPOST sdbBranch "b1" [{ type := .CREATE_ORDER, data := orderData, timestamp := 7 }] 10).2
        "b1" [{ type := .CREATE_ORDER, data := orderData, timestamp := 7 }] 20).1 =
      .ok { success := false, processed := 0, failed := 1, failedIds := ["op-0"],
            errors := ["CREATE_ORDER: Unique constraint failed on the fields: (id)"] } ∧
    (batchPushPOST
        (batchPushPOST sdbBranch "b1" [{ type := .CREATE_ORDER, data := orderData, timestamp := 7 }] 10).2
        "b1" [{ type := .CREATE_ORDER, data := orderData, timestamp := 7 }] 20).2.orderIds =
      sdbBranch.orderIds ++ [orderData.id] :=
  createOrder_resubmission_no_duplicate sdbBranch "b1" orderData
    [{ menuItemId := "m1", quantity := 1 }] 7 10 20
    (by decide) (by decide) rfl (by decide)

/-- C1 (evaluation of the code at the failing input): one batch round of
the push loop against the real batch-push route, starting from a queue
holding a single CREATE_INVENTORY operation whose payload references a
non-existent ingredient. The server classifies the operation as failed
and reports it under the positional id op-0; the client compares op-0
against its own generated operation id, finds no match, and deletes the
operation: the queue is empty afterwards instead of retaining the
operation with retryCount incremented to 1. -/
theorem failed_operation_deleted_not_retained :
    (pushRoundRT sdbBranch "b1" [invOp] 2000).2.2.failed = 1 ∧
    (pushRoundRT sdbBranch "b1" [invOp] 2000).2.2.failedIds = ["op-0"] ∧
    invOp.id ≠ "op-0" ∧
    (pushRoundRT sdbBranch "b1" [invOp] 2000).2.1 = [] := by
  decide

/-- Each handler leaves the SyncHistory table and the branch table
untouched: only the entity table it writes changes. -/
theorem processOperation_preserves (s : ServerDB) (op : SentOp) (b : String)
    (s' : ServerDB) (h : processOperation s op b = .ok s') :
    s'.syncHistory = s.syncHistory ∧ s'.branchIds = s.branchIds := by
  obtain ⟨t, d, ts⟩ := op
  cases t <;>
    simp only [processOperation, createOrder, updateOrder, createInventory,
      updateInventory, createWaste, createShift, updateShift, updateUser,
      tableCreate, tableUpdate, Bind.bind, Except.bind] at h <;>
    (repeat' split at h) <;>
    (cases h <;> try exact ⟨rfl, rfl⟩)

/-- Counting facts of the batch-processing loop: every operation is
classified (processed + failed covers the whole batch, so one failure
never aborts the remaining operations), the failedIds and errors lists
are parallel to the failed count, and the loop itself writes no
SyncHistory entry and no branch row. -/
theorem runOps_counts (b : String) :
    ∀ (ops : List SentOp) (s : ServerDB) (i : Nat),
      (runOps b s i ops).1.processed + (runOps b s i ops).1.failed = ops.length ∧
      (runOps b s i ops).1.failedIds.length = (runOps b s i ops).1.failed ∧
      (runOps b s i ops).1.errors.length = (runOps b s i ops).1.failed ∧
      (runOps b s i ops).2.syncHistory = s.syncHistory ∧
      (runOps b s i ops).2.branchIds = s.branchIds
  | [], s, i => by simp [runOps]
  | op :: rest, s, i => by
      cases hpo : processOperation s op b with
      | ok s' =>
          obtain ⟨h1, h2, h3, h4, h5⟩ := runOps_counts b rest s' (i + 1)
          obtain ⟨hp1, hp2⟩ := processOperation_preserves s op b s' hpo
          rcases hr : runOps b s' (i + 1) rest with ⟨r, sFin⟩
          rw [hr] at h1 h2 h3 h4 h5
          simp only at h1 h2 h3 h4 h5
          simp [runOps, hpo, hr, h2, h3, h4.trans hp1, h5.trans hp2]
          all_goals omega
      | error e =>
          obtain ⟨h1, h2, h3, h4, h5⟩ := runOps_counts b rest s (i + 1)
          rcases hr : runOps b s (i + 1) rest with ⟨r, sFin⟩
          rw [hr] at h1 h2 h3 h4 h5
          simp only at h1 h2 h3 h4 h5
          simp [runOps, hpo, hr, h2, h3, h4, h5]
          all_goals omega

/-- C7: a failure on one operation does not abort processing of the rest
of the batch (every operation of the batch is classified: processed plus
failed equals the batch length); the response reports the processed and
failed counts with the parallel failedIds and errors lists; and a
SyncHistory entry with recordsSynced equal to the processed count is
recorded exactly when at least one operation succeeded. -/
theorem batchPushPOST_isolation_and_history (s : ServerDB) (b : String)
    (ops : List SentOp) (now : Nat)
    (hb : ¬ b = "") (hbr : b ∈ s.branchIds) :
    respIsOk (batchPushPOST s b ops now).1 = true ∧
    respProcessed (batchPushPOST s b ops now).1 + respFailed (batchPushPOST s b ops now).1 =
      ops.length ∧
    (respFailedIds (batchPushPOST s b ops now).1).length =
      respFailed (batchPushPOST s b ops now).1 ∧
    (respErrors (batchPushPOST s b ops now).1).length =
      respFailed (batchPushPOST s b ops now).1 ∧
    respSuccess (batchPushPOST s b ops now).1 =
      (respFailed (batchPushPOST s b ops now).1 == 0) ∧
    (0 < respProcessed (batchPushPOST s b ops now).1 →
      (batchPushPOST s b ops now).2.syncHistory = s.syncHistory ++
        [{ branchId := b, direction := "UP", status := "COMPLETED",
           recordsSynced := respProcessed (batchPushPOST s b ops now).1,
           startedAt := (ops.headD default).timestamp, completedAt := now }]) ∧
    (respProcessed (batchPushPOST s b ops now).1 = 0 →
      (batchPushPOST s b ops now).2.syncHistory = s.syncHistory) := by
  obtain ⟨h1, h2, h3, h4, h5⟩ := runOps_counts b ops s 0
  rcases hr : runOps b s 0 ops with ⟨r, s1⟩
  rw [hr] at h1 h2 h3 h4 h5
  simp only at h1 h2 h3 h4 h5
  have hmain : batchPushPOST s b ops now =
      (.ok { success := r.failed == 0, processed := r.processed, failed := r.failed,
             failedIds := r.failedIds, errors := r.errors },
       if r.processed > 0 then
         { s1 with syncHistory := s1.syncHistory ++
             [{ branchId := b, direction := "UP", status := "COMPLETED",
                recordsSynced := r.processed,
                startedAt := (ops.headD default).timestamp, completedAt := now }] }
       else s1) := by
    unfold batchPushPOST
    simp [hb, hbr, hr]
  rw [hmain]
  by_cases hp : r.processed > 0 <;>
    (simp [respIsOk, respProcessed, respFailed, respFailedIds, respErrors, respSuccess,
       hp, h1, h2, h3, h4, h5]
     all_goals omega)

/-- Witness for the batch isolation/history theorem at a concrete batch
holding one succeeding and one failing operation. -/
theorem batchPushPOST_isolation_and_history_witness :
    respIsOk (batchPushPOST sdbBranch "b1" [opCreateOrder,
        { type := .CREATE_COURIER, data := {}, timestamp := 8 }] 10).1 = true ∧
    respProcessed (batchPushPOST sdbBranch "b1" [opCreateOrder,
        { type := .CREATE_COURIER, data := {}, timestamp := 8 }] 10).1 +
      respFailed (batchPushPOST sdbBranch "b1" [opCreateOrder,
        { type := .CREATE_COURIER, data := {}, timestamp := 8 }] 10).1 = 2 ∧
    (respFailedIds (batchPushPOST sdbBranch "b1" [opCreateOrder,
        { type := .CREATE_COURIER, data := {}, timestamp := 8 }] 10).1).length =
      respFailed (batchPushPOST sdbBranch "b1" [opCreateOrder,
        { type := .CREATE_COURIER, data := {}, timestamp := 8 }] 10).1 ∧
    (respErrors (batchPushPOST sdbBranch "b1" [opCreateOrder,
        { type := .CREATE_COURIER, data := {}, timestamp := 8 }] 10).1).length =
      respFailed (batchPushPOST sdbBranch "b1" [opCreateOrder,
        { type := .CREATE_COURIER, data := {}, timestamp := 8 }] 10).1 ∧
    respSuccess (batchPushPOST sdbBranch "b1" [opCreateOrder,
        { type := .CREATE_COURIER, data := {}, timestamp := 8 }] 10).1 =
      (respFailed (batchPushPOST sdbBranch "b1" [opCreateOrder,
        { type := .CREATE_COURIER, data := {}, timestamp := 8 }] 10).1 == 0) ∧
    (0 < respProcessed (batchPushPOST sdbBranch "b1" [opCreateOrder,
        { type := .CREATE_COURIER, data := {}, timestamp := 8 }] 10).1 →
      (batchPushPOST sdbBranch "b1" [opCreateOrder,
        { type := .CREATE_COURIER, data := {}, timestamp := 8 }] 10).2.syncHistory =
        sdbBranch.syncHistory ++
          [{ branchId := "b1", direction := "UP", status := "COMPLETED",
             recordsSynced := respProcessed (batchPushPOST sdbBranch "b1" [opCreateOrder,
               { type := .CREATE_COURIER, data := {}, timestamp := 8 }] 10).1,
             startedAt := 7, completedAt := 10 }]) ∧
    (respProcessed (batchPushPOST sdbBranch "b1" [opCreateOrder,
        { type := .CREATE_COURIER, data := {}, timestamp := 8 }] 10).1 = 0 →
      (batchPushPOST sdbBranch "b1" [opCreateOrder,
        { type := .CREATE_COURIER, data := {}, timestamp := 8 }] 10).2.syncHistory =
        sdbBranch.syncHistory) :=
  batchPushPOST_isolation_and_history sdbBranch "b1"
    [opCreateOrder, { type := .CREATE_COURIER, data := {}, timestamp := 8 }] 10
    (by decide) (by decide)

/-- When an unresolved conflict row is already recorded for the entity,
detectConflict answers true and writes nothing. -/
theorem detectConflict_found (db : ConflictDB) (b et ei : String) (bd cd : JVal)
    (now : Nat) (c : ConflictRow)
    (h : db.rows.find? (openPred b et ei) = some c) :
    detectConflict db b et ei bd cd now = (true, db) := by
  simp [detectConflict, h]

/-- C8: detectConflict returns true and persists a new open conflict row
exactly when no unresolved conflict exists for the triple and the
structural comparison of the payloads differs; when an unresolved
conflict is already open it returns true without creating a second
record; consequently two successive calls with differing payloads leave
exactly one open conflict record for the entity. -/
theorem detectConflict_characterization (db : ConflictDB) (b et ei : String)
    (bd cd bd' cd' : JVal) (now now' : Nat) :
    (∀ c, db.rows.find? (openPred b et ei) = some c →
        detectConflict db b et ei bd cd now = (true, db)) ∧
    (db.rows.find? (openPred b et ei) = none → isDataEqual bd cd = true →
        detectConflict db b et ei bd cd now = (false, db)) ∧
    (db.rows.find? (openPred b et ei) = none → isDataEqual bd cd = false →
        detectConflict db b et ei bd cd now =
          (true, { rows := db.rows ++ [newConflictRow db b et ei bd cd now]
                   nextId := db.nextId + 1 })) ∧
    (db.rows.find? (openPred b et ei) = none → isDataEqual bd cd = false →
        isDataEqual bd' cd' = false →
        (openConflicts (detectConflict (detectConflict db b et ei bd cd now).2
            b et ei bd' cd' now').2 b et ei).length = 1) := by
  have hnewPred : openPred b et ei (newConflictRow db b et ei bd cd now) = true := by
    simp [openPred, newConflictRow]
  refine ⟨fun c h => detectConflict_found db b et ei bd cd now c h, ?_, ?_, ?_⟩
  · intro h he
    simp [detectConflict, h, he]
  · intro h hne
    simp [detectConflict, h, hne]
  · intro h h1 h2
    have e1 : detectConflict db b et ei bd cd now =
        (true, { rows := db.rows ++ [newConflictRow db b et ei bd cd now]
                 nextId := db.nextId + 1 }) := by
      simp [detectConflict, h, h1]
    rw [e1]
    have hfind2 : ({ rows := db.rows ++ [newConflictRow db b et ei bd cd now]
                     nextId := db.nextId + 1 } : ConflictDB).rows.find?
          (openPred b et ei) = some (newConflictRow db b et ei bd cd now) := by
      show (db.rows ++ [newConflictRow db b et ei bd cd now]).find? _ = _
      rw [List.find?_append, h]
      simp [List.find?, hnewPred]
    rw [detectConflict_found _ b et ei bd' cd' now' _ hfind2]
    have hnil : db.rows.filter (openPred b et ei) = [] :=
      List.filter_eq_nil_iff.mpr (fun a ha => by
        have := List.find?_eq_none.mp h a ha
        simpa using this)
    simp [openConflicts, List.filter_append, hnil, hnewPred]

/-- Witness for the conflict-uniqueness theorem: two detections with
differing payloads starting from an empty ledger record exactly one open
conflict. -/
theorem detectConflict_characterization_witness :
    (openConflicts (detectConflict (detectConflict emptyLedger "b1" "MenuItem" "M1"
        (.num 5) (.num 7) 100).2 "b1" "MenuItem" "M1" (.num 6) (.num 7) 200).2
      "b1" "MenuItem" "M1").length = 1 :=
  (detectConflict_characterization emptyLedger "b1" "MenuItem" "M1"
      (.num 5) (.num 7) (.num 6) (.num 7) 100 200).2.2.2 rfl rfl rfl

/-- C9: conflict resolution is terminal: the resolve endpoint rejects a
conflict whose resolvedAt is already set with the already-resolved error
and leaves the ledger (hence the resolvedAt, resolvedBy and resolution
fields of the row) unchanged. -/
theorem resolvePost_already_resolved_rejected (db : ConflictDB) (cid : Nat)
    (res rb : String) (now t : Nat) (c : ConflictRow)
    (hres : (["ACCEPT_BRANCH", "ACCEPT_CENTRAL", "MANUAL_MERGE"].contains res) = true)
    (hfind : db.rows.find? (fun r => r.id == cid) = some c)
    (hresolved : c.resolvedAt = some t) :
    resolvePost db cid (some res) (some rb) now = (.alreadyResolved, db) := by
  have hres' : res = "ACCEPT_BRANCH" ∨ res = "ACCEPT_CENTRAL" ∨ res = "MANUAL_MERGE" := by
    simpa using hres
  rcases hres' with h | h | h <;> simp [resolvePost, h, hfind, hresolved]

/-- Witness for the resolution-terminality theorem at a ledger with one
already-resolved conflict. -/
theorem resolvePost_already_resolved_rejected_witness :
    resolvePost resolvedLedger 1 (some "ACCEPT_CENTRAL") (some "bob") 300 =
      (.alreadyResolved, resolvedLedger) :=
  resolvePost_already_resolved_rejected resolvedLedger 1 "ACCEPT_CENTRAL" "bob" 300 200
    resolvedRow (by decide) rfl rfl

/-- Replacing-put preserves the id sequence of the store when the id is
already present. -/
theorem idsOf_putOp_of_mem (store : List ClientOp) (op : ClientOp)
    (h : op.id ∈ idsOf store) : idsOf (putOp store op) = idsOf store := by
  have hany : store.any (fun o => o.id == op.id) = true := by
    rw [List.any_eq_true]
    obtain ⟨o, ho, hoid⟩ := List.mem_map.mp h
    exact ⟨o, ho, by simp [hoid]⟩
  unfold putOp
  rw [if_pos hany]
  unfold idsOf
  rw [List.map_map]
  apply List.map_congr_left
  intro o _ho
  simp only [Function.comp_apply]
  split
  next heq => exact (eq_of_beq heq).symm
  next => rfl

/-- When every operation of the batch is reported failed and already has
its id in the store, the end-of-batch loop only bumps retry counts in
place: the id sequence of the store is unchanged. -/
theorem idsOf_applyBatchResult (batch : List ClientOp) :
    ∀ (store : List ClientOp) (fids : List String),
      (∀ op ∈ batch, op.id ∈ fids) →
      (∀ op ∈ batch, op.id ∈ idsOf store) →
      idsOf (applyBatchResult store batch fids) = idsOf store := by
  induction batch with
  | nil => intro store fids _ _; rfl
  | cons op rest ih =>
      intro store fids hf hm
      have hc : fids.contains op.id = true := by simpa using hf op (by simp)
      have hput : idsOf (putOp store { op with retryCount := op.retryCount + 1 }) =
          idsOf store :=
        idsOf_putOp_of_mem store _ (hm op (by simp))
      have hstep : applyBatchResult store (op :: rest) fids =
          applyBatchResult (putOp store { op with retryCount := op.retryCount + 1 })
            rest fids := by
        unfold applyBatchResult
        rw [List.foldl_cons]
        congr 1
        rw [if_neg (by simpa using hc)]
        rfl
      rw [hstep,
        ih _ fids (fun o ho => hf o (List.mem_cons_of_mem _ ho))
          (fun o ho => by rw [hput]; exact hm o (List.mem_cons_of_mem _ ho))]
      exact hput

/-- The failing-request iteration written out: the batch comes from the
sorted queue and every batch id is reported failed. -/
theorem pushIterHttpFail_eq (msg : String) (store : List ClientOp) :
    pushIterHttpFail msg store =
      applyBatchResult store ((getPendingOperations store).take CONFIG.batchSize)
        (((getPendingOperations store).take CONFIG.batchSize).map (fun op => op.id)) := rfl

/-- A failing-request iteration preserves the id sequence of the queue. -/
theorem idsOf_pushIterHttpFail (msg : String) (store : List ClientOp) :
    idsOf (pushIterHttpFail msg store) = idsOf store := by
  rw [pushIterHttpFail_eq]
  apply idsOf_applyBatchResult
  · intro op hop
    exact List.mem_map_of_mem _ hop
  · intro op hop
    have h1 : op ∈ getPendingOperations store := List.mem_of_mem_take hop
    have h2 : op ∈ store := by
      have := h1
      simp only [getPendingOperations] at this
      exact (List.mem_insertionSort tsLE).mp this
    exact List.mem_map_of_mem _ h2

/-- Iterating failing-request rounds never changes the id sequence of the
queue. -/
theorem idsOf_iterate_pushIterHttpFail (msg : String) (store : List ClientOp) (n : Nat) :
    idsOf ((pushIterHttpFail msg)^[n] store) = idsOf store := by
  induction n with
  | zero => rfl
  | succ n ih => rw [Function.iterate_succ_apply', idsOf_pushIterHttpFail, ih]

/-- On a singleton queue, one failing-request round keeps the operation
and bumps its retry count by exactly one. -/
theorem pushIterHttpFail_singleton (msg : String) (op : ClientOp) :
    pushIterHttpFail msg [op] = [{ op with retryCount := op.retryCount + 1 }] := by
  have hsort : getPendingOperations [op] = [op] := by
    simp [getPendingOperations, List.insertionSort, List.orderedInsert]
  have htake : ([op] : List ClientOp).take CONFIG.batchSize = [op] :=
    List.take_of_length_le (by simp [CONFIG])
  rw [pushIterHttpFail_eq, hsort, htake]
  simp [applyBatchResult, updateOperation, putOp]

/-- On a singleton queue, n failing-request rounds keep the operation
with its retry count grown by n. -/
theorem iterate_pushIterHttpFail_singleton (msg : String) (op : ClientOp) (n : Nat) :
    (pushIterHttpFail msg)^[n] [op] = [{ op with retryCount := op.retryCount + n }] := by
  induction n with
  | zero => rfl
  | succ n ih =>
      rw [Function.iterate_succ_apply', ih, pushIterHttpFail_singleton]
      simp [Nat.add_assoc]

/-- With a failing transport and a non-empty queue, every unrolled
iteration of the push loop performs a batch-push request and the loop
never reaches its exit condition within the fuel bound. -/
theorem pushOpsGo_failing_acts (msg : String) :
    ∀ (n : Nat) (store : List ClientOp) (acc : PushAcc), store ≠ [] →
      ((pushOpsGo (failingHttp msg) n store acc).2.2).length = n := by
  intro n
  induction n with
  | zero => intro store acc _; rfl
  | succ n ih =>
      intro store acc h
      have hlen : ¬ (getPendingOperations store).length = 0 := by
        have hperm := (List.perm_insertionSort tsLE store).length_eq
        simp only [getPendingOperations]
        rw [hperm]
        exact fun hh => h (List.length_eq_zero.mp hh)
      have hne : (pushLoopBody (failingHttp msg) store acc).1 ≠ [] := by
        have hstep1 : (pushLoopBody (failingHttp msg) store acc).1 =
            pushIterHttpFail msg store := rfl
        rw [hstep1]
        intro hnil
        apply h
        have hids := idsOf_pushIterHttpFail msg store
        rw [hnil] at hids
        cases store with
        | nil => rfl
        | cons a l => simp [idsOf] at hids
      unfold pushOpsGo
      rw [if_neg hlen]
      show (NetAction.batchPushReq :: (pushOpsGo (failingHttp msg) n
          (pushLoopBody (failingHttp msg) store acc).1
          (pushLoopBody (failingHttp msg) store acc).2).2.2).length = n + 1
      rw [List.length_cons, ih _ _ hne]

/-- C10: when the batch-push HTTP request fails on every attempt, a push
pass never terminates: every operation of the batch is marked failed
under its real client id and retained, so iterated rounds preserve the
queue length and the loop guard stays true (the re-read queue is never
empty) no matter how many iterations run — every unrolled iteration
performs another batch-push request — while on a singleton queue the
retry count grows by one per round without any bound (in particular past
CONFIG.maxRetryAttempts, which the loop never consults). -/
theorem pushOperations_request_failure_nontermination (msg : String)
    (store : List ClientOp) (h : store ≠ []) (n : Nat) :
    ((pushIterHttpFail msg)^[n] store).length = store.length ∧
    getPendingOperations ((pushIterHttpFail msg)^[n] store) ≠ [] ∧
    (∀ acc : PushAcc, ((pushOpsGo (failingHttp msg) n store acc).2.2).length = n) ∧
    (∀ op : ClientOp, (pushIterHttpFail msg)^[n] [op] =
        [{ op with retryCount := op.retryCount + n }]) := by
  have hids := idsOf_iterate_pushIterHttpFail msg store n
  have hlen : ((pushIterHttpFail msg)^[n] store).length = store.length := by
    have hcong := congrArg List.length hids
    simpa [idsOf] using hcong
  refine ⟨hlen, ?_, fun acc => pushOpsGo_failing_acts msg n store acc h,
    fun op => iterate_pushIterHttpFail_singleton msg op n⟩
  intro hnil
  apply h
  have hzero : ((pushIterHttpFail msg)^[n] store).length = 0 := by
    have hperm := (List.perm_insertionSort tsLE ((pushIterHttpFail msg)^[n] store)).length_eq
    rw [show getPendingOperations ((pushIterHttpFail msg)^[n] store) =
        List.insertionSort tsLE ((pushIterHttpFail msg)^[n] store) from rfl] at hnil
    rw [hnil] at hperm
    simpa using hperm.symm
  rw [hlen] at hzero
  exact List.length_eq_zero.mp hzero

/-- Witness for the nontermination theorem: five failing rounds on a
singleton queue keep the queue occupied, perform five batch-push
requests, and raise the retry count to 5 (beyond the configured maximum
of 3). -/
theorem pushOperations_request_failure_nontermination_witness :
    ((pushIterHttpFail "Failed to fetch")^[5] [invOp]).length = 1 ∧
    getPendingOperations ((pushIterHttpFail "Failed to fetch")^[5] [invOp]) ≠ [] ∧
    ((pushOpsGo (failingHttp "Failed to fetch") 5 [invOp]
        { success := true, operationsProcessed := 0, operationsFailed := 0,
          errors := [] }).2.2).length = 5 ∧
    (pushIterHttpFail "Failed to fetch")^[5] [invOp] =
      [{ invOp with retryCount := invOp.retryCount + 5 }] :=
  have T := pushOperations_request_failure_nontermination "Failed to fetch" [invOp]
    (by simp) 5
  ⟨T.1, T.2.1, T.2.2.1 _, T.2.2.2 invOp⟩

end NewSync
